import Mathlib

/-!
Verification development for the speech-to-text backend.

Shallow embedding of the repository under verification:
* `src/src/utils/fileUpload.ts` — audio ingest validation and file cleanup
* `src/src/models/Transcription.ts` — the transcription record and the
  Deepgram provider client (`transcribeFile` / `transcribeBuffer`)
* `src/src/controllers/transcriptionController.ts` — the transcription
  lifecycle (`uploadAndTranscribe` and the per-record CRUD handlers)
* `src/src/controllers/authController.ts` — `login`, `logoutAllDevices`
* `src/unnamed/part_002` (utils/jwt.ts) — token issue and verification
* `src/unnamed/part_001` (shared/schema.ts) — the zod request schemas

Machine integers are modelled as `Nat`; JS floating-point quantities
(confidence, duration) as `ℚ`; nullable values as `Option`; thrown
exceptions as `Except`.  The document store is a list of records, the
upload directory a list of stored paths.  Out-of-scope library functions
(bcrypt, JWT signing, base64) are modelled as injective stand-ins, which
the spec itself declares external collaborators.
-/

namespace SpeechToText

/-- Lifecycle status enum of a transcription record
(src/src/models/Transcription.ts, lines 68-72). -/
inductive Status where
  | processing
  | completed
  | failed
deriving DecidableEq, Repr

/-- Provenance enum of a transcription record
(src/src/models/Transcription.ts, lines 73-77). -/
inductive Source where
  | upload
  | recording
deriving DecidableEq, Repr

/-- The multer file object the upload handler receives: original client
filename, declared MIME type, byte size, and path of the stored bytes. -/
structure MulterFile where
  originalname : String
  mimetype : String
  size : Nat
  path : String
deriving DecidableEq, Repr

/-- ASCII lowercasing, as String.prototype.toLowerCase acts on the
extension strings involved. -/
def strToLower (s : String) : String := String.mk (s.data.map Char.toLower)

/-- Helper for `extname`: walks the reversed basename, accumulating the
characters after the last dot.  A dot that is the first character of the
basename (a dotfile) yields no extension, matching Node path.extname. -/
def extnameRevAux : List Char → List Char → String
  | _, [] => ""
  | acc, c :: rest =>
    if c = '.' then (if rest = [] then "" else String.mk ('.' :: acc))
    else extnameRevAux (c :: acc) rest

/-- The basename of a path, reversed: the characters after the last
slash, in reverse order. -/
def basenameRev (p : String) : List Char :=
  p.data.reverse.takeWhile (fun c => c ≠ '/')

/-- Node path.extname: the suffix of the basename starting at its last
dot, or the empty string when the basename has no usable dot. -/
def extname (p : String) : String :=
  extnameRevAux [] (basenameRev p)

/-- Allow-listed audio file extensions
(src/src/utils/fileUpload.ts, lines 43 and 99). -/
def allowedExtensions : List String :=
  [".mp3", ".wav", ".webm", ".mp4", ".m4a", ".aac", ".ogg", ".opus", ".flac"]

/-- Result shape of `validateAudioFile`: a valid flag plus an optional
error message (src/src/utils/fileUpload.ts, line 90). -/
structure ValidationResult where
  valid : Bool
  error : Option String
deriving DecidableEq, Repr

/-- src/src/utils/fileUpload.ts, lines 90-107: reject when no file is
given, when the size exceeds 50 MiB, or when the lowercased filename
extension is outside the allow-list; otherwise accept. -/
def validateAudioFile (file : Option MulterFile) : ValidationResult :=
  match file with
  | none => { valid := false, error := some "No file provided" }
  | some f =>
    if f.size > 50 * 1024 * 1024 then
      { valid := false, error := some "File size too large. Maximum 50MB allowed." }
    else if !(allowedExtensions.contains (strToLower (extname f.originalname))) then
      { valid := false, error := some "Unsupported file type." }
    else
      { valid := true, error := none }

/-- JS Math.round on a rational. -/
def jsRound (q : ℚ) : ℤ := ⌊q + 1 / 2⌋

/-- src/src/utils/fileUpload.ts, lines 63-75: byte-size based duration
heuristic — one megabyte is approximated as one minute, with a minimum
of one second.  The stat call is modelled by passing the stored size. -/
def getAudioDuration (sizeBytes : Nat) : ℚ :=
  let sizeInMB : ℚ := (sizeBytes : ℚ) / (1024 * 1024)
  let r : ℚ := (jsRound (sizeInMB * 60) : ℚ)
  if r ≤ 1 then 1 else r

/-- src/src/utils/fileUpload.ts, lines 78-87: unlink the file when it
exists.  The upload directory is the list of stored paths. -/
def cleanupFile (disk : List String) (filePath : String) : List String :=
  if disk.contains filePath then disk.filter (fun p => p != filePath) else disk

/-! ## Deepgram provider client (src/src/models/Transcription.ts, deepgramService part) -/

/-- One transcript alternative in a Deepgram response; both fields may be
absent in the raw JSON. -/
structure DGAlternative where
  transcript : Option String
  confidence : Option ℚ
deriving DecidableEq, Repr

/-- One channel of a Deepgram response. -/
structure DGChannel where
  alternatives : List DGAlternative
deriving DecidableEq, Repr

/-- The results object of a Deepgram response. -/
structure DGResults where
  channels : List DGChannel
deriving DecidableEq, Repr

/-- The metadata object of a Deepgram response; every field optional. -/
structure DGMetadata where
  duration : Option ℚ
  request_id : Option String
  processing_total_time : Option ℚ
deriving DecidableEq, Repr

/-- A Deepgram result document; `results` and `metadata` may be absent. -/
structure DGResult where
  results : Option DGResults
  metadata : Option DGMetadata
deriving DecidableEq, Repr

/-- Outcome of the raw SDK call, mirroring the destructured
`{ result, error }` pair returned by the Deepgram SDK. -/
inductive RemoteOutcome where
  | sdkError (message : String)
  | sdkOk (result : Option DGResult)
deriving DecidableEq, Repr

/-- Metadata the service forwards to the data model (request id and
processing time; model info and language are opaque and omitted). -/
structure TranscribeMetadata where
  deepgramRequestId : Option String
  processingTime : ℚ
deriving DecidableEq, Repr

/-- Return shape of the provider client
(src/src/models/Transcription.ts, lines 110-115). -/
structure TranscribeResult where
  transcription : String
  confidence : ℚ
  duration : ℚ
  metadata : TranscribeMetadata
deriving DecidableEq, Repr

/-- The optional-chaining check
`result?.results?.channels?.[0]?.alternatives?.[0]`
(src/src/models/Transcription.ts, line 145). -/
def firstAlternative (result : Option DGResult) : Option DGAlternative :=
  match result with
  | none => none
  | some r =>
    match r.results with
    | none => none
    | some rs =>
      match rs.channels.head? with
      | none => none
      | some ch => ch.alternatives.head?

/-- src/src/models/Transcription.ts, lines 110-178: throw when the SDK
reports an error or when no first alternative exists; otherwise extract
transcript, confidence and duration with `|| 0` / `|| ""` defaults. -/
def transcribeFile (remote : RemoteOutcome) : Except String TranscribeResult :=
  match remote with
  | .sdkError msg => .error ("Transcription failed: Deepgram API error: " ++ msg)
  | .sdkOk result =>
    match firstAlternative result with
    | none => .error "Transcription failed: No transcription results returned from Deepgram"
    | some alternative =>
      let md := result.bind DGResult.metadata
      .ok
        { transcription := alternative.transcript.getD ""
          confidence := alternative.confidence.getD 0
          duration := (md.bind DGMetadata.duration).getD 0
          metadata :=
            { deepgramRequestId := md.bind DGMetadata.request_id
              processingTime := (md.bind DGMetadata.processing_total_time).getD 0 } }

/-- src/src/models/Transcription.ts, lines 180-246: identical handling
to `transcribeFile`, on an in-memory buffer instead of a path. -/
def transcribeBuffer (remote : RemoteOutcome) : Except String TranscribeResult :=
  match remote with
  | .sdkError msg => .error ("Transcription failed: Deepgram API error: " ++ msg)
  | .sdkOk result =>
    match firstAlternative result with
    | none => .error "Transcription failed: No transcription results returned from Deepgram"
    | some alternative =>
      let md := result.bind DGResult.metadata
      .ok
        { transcription := alternative.transcript.getD ""
          confidence := alternative.confidence.getD 0
          duration := (md.bind DGMetadata.duration).getD 0
          metadata :=
            { deepgramRequestId := md.bind DGMetadata.request_id
              processingTime := (md.bind DGMetadata.processing_total_time).getD 0 } }

/-! ## Users, passwords and JWT (authController.ts, utils/jwt.ts, README schema) -/

/-- A user document, per the README schema for the user-details
collection (models/User.ts is not in the snapshot). -/
structure User where
  id : String
  username : String
  email : String
  password : String
  tokenVersion : Nat
  isActive : Bool
  loginAttempts : Nat
  lockUntil : Option Nat
deriving DecidableEq, Repr

/-- Stand-in for the bcrypt hashing library, declared out of scope by the
spec: an injective tagging of the plaintext. -/
def bcryptHash (password : String) : String := "bcrypt$" ++ password

/-- Stand-in for bcrypt.compare: the hash matches exactly the hash of the
supplied plaintext. -/
def bcryptCompare (password hash : String) : Bool := hash == bcryptHash password

/-- Modelled from the spec: models/User.ts is absent from the snapshot;
its virtual `isLocked` is true while the current time is inside the
lockout window (a lock-until timestamp still in the future). -/
def isLocked (u : User) (now : Nat) : Bool :=
  match u.lockUntil with
  | none => false
  | some t => now < t

/-- Failed-login threshold (README: MAX_LOGIN_ATTEMPTS=5). -/
def maxLoginAttempts : Nat := 5

/-- Lockout window in seconds (README: ACCOUNT_LOCKOUT_TIME=2h). -/
def accountLockoutTime : Nat := 2 * 60 * 60

/-- Modelled from the spec: models/User.ts is absent; `incLoginAttempts`
bumps the consecutive-failure counter and, at the threshold, sets the
lock-until timestamp one cooldown window into the future. -/
def incLoginAttempts (u : User) (now : Nat) : User :=
  let attempts := u.loginAttempts + 1
  if maxLoginAttempts ≤ attempts then
    { u with loginAttempts := attempts, lockUntil := some (now + accountLockoutTime) }
  else
    { u with loginAttempts := attempts }

/-- Modelled from the spec: models/User.ts is absent; a successful login
resets the failure counter and clears any lock. -/
def resetLoginAttempts (u : User) : User :=
  { u with loginAttempts := 0, lockUntil := none }

/-- Modelled from the spec: models/User.ts is absent;
`incrementTokenVersion` bumps the token-epoch counter
(authController.ts line 237 calls it to invalidate existing tokens). -/
def incrementTokenVersion (u : User) : User :=
  { u with tokenVersion := u.tokenVersion + 1 }

/-- The access-token signing secret (src/unnamed/part_002, line 4). -/
def jwtSecret : String := "your-fallback-secret"

/-- JWT payload shape (src/unnamed/part_002, lines 7-12). -/
structure JWTPayload where
  userId : String
  email : String
  username : String
  tokenVersion : Option Nat
deriving DecidableEq, Repr

/-- A signed token: payload plus the registered claims jwt.sign sets.
The signature is modelled as the secret that produced it, so signature
validity is equality with the verifier secret. -/
structure Token where
  payload : JWTPayload
  exp : Nat
  iss : String
  aud : String
  sig : String
deriving DecidableEq, Repr

/-- src/unnamed/part_002, lines 24-30: sign the payload with a
15-minute expiry and fixed issuer/audience. -/
def generateAccessToken (payload : JWTPayload) (now : Nat) : Token :=
  { payload := payload
    exp := now + 15 * 60
    iss := "speech-to-text-app"
    aud := "speech-to-text-users"
    sig := jwtSecret }

/-- src/unnamed/part_002, lines 47-58: jwt.verify — signature, issuer,
audience and expiry checks; the decoded payload on success, none on any
failure. -/
def verifyAccessToken (token : Token) (now : Nat) : Option JWTPayload :=
  if token.sig == jwtSecret && token.iss == "speech-to-text-app" &&
      token.aud == "speech-to-text-users" && decide (now < token.exp) then
    some token.payload
  else
    none

/-- src/unnamed/part_002, lines 80-90: expiry pre-check on the decoded
claims only. -/
def isTokenExpired (token : Token) (now : Nat) : Bool :=
  decide (token.exp < now)

/-- Outcome of the authentication middleware, with the distinct
rejection codes it emits. -/
inductive AuthResult where
  | tokenMissing
  | tokenExpired
  | tokenInvalid
  | authenticated (payload : JWTPayload)
deriving DecidableEq, Repr

/-- src/unnamed/part_002, lines 104-140: the middleware reads only the
request token — missing, expired, then signature verification.  It never
consults the user store, so no token-epoch comparison happens here. -/
def authenticateToken (token : Option Token) (now : Nat) : AuthResult :=
  match token with
  | none => .tokenMissing
  | some t =>
    if isTokenExpired t now then .tokenExpired
    else
      match verifyAccessToken t now with
      | none => .tokenInvalid
      | some payload => .authenticated payload

/-- UserModel.findById. -/
def findUserById (users : List User) (userId : String) : Option User :=
  users.find? (fun u => u.id == userId)

/-- UserModel.findOne on email. -/
def findUserByEmail (users : List User) (email : String) : Option User :=
  users.find? (fun u => u.email == email)

/-- Persisting a mutated user document back into the store, keyed by id. -/
def saveUser (users : List User) (u : User) : List User :=
  users.map (fun v => if v.id == u.id then u else v)

/-- Responses of logoutAllDevices. -/
inductive LogoutAllResp where
  | userNotFound
  | loggedOut
deriving DecidableEq, Repr

/-- src/src/controllers/authController.ts, lines 226-248: look the user
up and bump the token-epoch counter. -/
def logoutAllDevices (users : List User) (userId : String) :
    LogoutAllResp × List User :=
  match findUserById users userId with
  | none => (.userNotFound, users)
  | some u => (.loggedOut, saveUser users (incrementTokenVersion u))

/-- Responses of the login controller, after schema validation. -/
inductive LoginResp where
  | invalidCredentials
  | accountLocked
  | accountDeactivated
  | loginOk (accessToken : Token)
deriving DecidableEq, Repr

/-- src/src/controllers/authController.ts, lines 78-181, after the zod
validation: unknown email and wrong password give the same uniform
rejection; the locked check precedes the password check; success resets
the failure counter and issues a token carrying the current epoch. -/
def login (users : List User) (email password : String) (now : Nat) :
    LoginResp × List User :=
  match findUserByEmail users email with
  | none => (.invalidCredentials, users)
  | some user =>
    if isLocked user now then (.accountLocked, users)
    else if !user.isActive then (.accountDeactivated, users)
    else if !(bcryptCompare password user.password) then
      (.invalidCredentials, saveUser users (incLoginAttempts user now))
    else
      let payload : JWTPayload :=
        { userId := user.id
          email := user.email
          username := user.username
          tokenVersion := some user.tokenVersion }
      (.loginOk (generateAccessToken payload now),
        saveUser users (resetLoginAttempts user))

/-! ## Transcription records and the lifecycle controllers -/

/-- A transcription document
(src/src/models/Transcription.ts, lines 3-86).  The base64 audioData
payload and the fixed language field are omitted: no claim touches them
and base64 encoding is an out-of-scope bijection on the stored bytes. -/
structure Transcription where
  id : String
  userId : String
  username : String
  email : String
  title : String
  originalFilename : String
  fileUrl : String
  mimeType : String
  fileSize : Nat
  duration : ℚ
  transcription : String
  confidence : ℚ
  status : Status
  source : Source
  metadata : Option TranscribeMetadata
deriving DecidableEq, Repr

/-- TranscriptionModel.findOne on the two-field filter used by every
per-record handler. -/
def findTranscription (db : List Transcription) (id userId : String) :
    Option Transcription :=
  db.find? (fun t => t.id == id && t.userId == userId)

/-- Saving a mutated transcription document back into the store, keyed
by its id (mongoose document save). -/
def updateTranscriptionById (db : List Transcription) (id : String)
    (f : Transcription → Transcription) : List Transcription :=
  db.map (fun t => if t.id == id then f t else t)

/-- Request body of the upload endpoint before validation. -/
structure CreateBody where
  title : Option String
  source : Option Source
deriving DecidableEq, Repr

/-- src/unnamed/part_001, lines 56-59: createTranscriptionSchema — title
defaults to "New Transcription" and must have length 1..200 when given;
source defaults to upload. -/
def parseCreateTranscription (body : CreateBody) : Option (String × Source) :=
  match body.title with
  | none => some ("New Transcription", body.source.getD .upload)
  | some t =>
    if 1 ≤ t.length ∧ t.length ≤ 200 then some (t, body.source.getD .upload)
    else none

/-- Raw body of the update endpoint; the extra fields model a client
trying to overwrite immutable columns — zod strips them. -/
structure UpdateBody where
  title : Option String
  originalFilename : Option String
  mimeType : Option String
  fileSize : Option Nat
  userId : Option String
deriving DecidableEq, Repr

/-- The parsed update data: only a title survives the schema. -/
structure UpdateData where
  title : Option String
deriving DecidableEq, Repr

/-- src/unnamed/part_001, lines 61-63: updateTranscriptionSchema — an
optional title of length 1..200; every unknown key is stripped. -/
def parseUpdateTranscription (body : UpdateBody) : Option UpdateData :=
  match body.title with
  | none => some { title := none }
  | some t =>
    if 1 ≤ t.length ∧ t.length ≤ 200 then some { title := some t }
    else none

/-- Observable events of one submission, in the order the handler and
its background continuation emit them. -/
inductive Event where
  | recordCreated (id : String) (status : Status)
  | providerInvoked (id : String)
  | responded (code : Nat) (reportedStatus : Option Status)
  | terminalWrite (id : String) (status : Status)
deriving DecidableEq, Repr

/-- HTTP outcomes of the upload handler. -/
inductive UploadResp where
  | noFile
  | invalidFile (message : String)
  | invalidBody
  | userNotFound
  | created (transcriptionId : String) (status : Status)
deriving DecidableEq, Repr

/-- The HTTP status code of each upload outcome. -/
def UploadResp.code : UploadResp → Nat
  | .noFile => 400
  | .invalidFile _ => 400
  | .invalidBody => 400
  | .userNotFound => 404
  | .created _ _ => 201

/-- The closure state the fire-and-forget continuation captures: the
in-memory document, the file path, the declared MIME type, the
provenance, and the heuristic duration estimate. -/
structure PendingJob where
  doc : Transcription
  filePath : String
  mimeType : String
  source : Source
  durationEstimate : ℚ
deriving DecidableEq, Repr

/-- Result of the synchronous part of the upload handler: the HTTP
response, the store after the handler returns, the scheduled background
job if any, and the events emitted so far. -/
structure SubmitResult where
  resp : UploadResp
  db : List Transcription
  pending : Option PendingJob
  events : List Event
deriving DecidableEq, Repr

/-- The initial record the handler persists
(src/src/controllers/transcriptionController.ts, lines 97-111). -/
def newRecord (userId : String) (user : User) (f : MulterFile)
    (title : String) (source : Source) (newId : String) : Transcription :=
  { id := newId
    userId := userId
    username := user.username
    email := user.email
    title := title
    originalFilename := f.originalname
    fileUrl := f.path
    mimeType := f.mimetype
    fileSize := f.size
    duration := getAudioDuration f.size
    transcription := ""
    confidence := 0
    status := .processing
    source := source
    metadata := none }

/-- src/src/controllers/transcriptionController.ts, lines 23-157,
synchronous part: reject missing file, failed file validation, failed
body validation, unknown user; otherwise persist a processing record,
start the provider call (the pending job) and answer 201 immediately. -/
def uploadAndTranscribe (users : List User) (db : List Transcription)
    (userId : String) (file : Option MulterFile) (body : CreateBody)
    (newId : String) : SubmitResult :=
  match file with
  | none =>
    { resp := .noFile, db := db, pending := none
      events := [.responded 400 none] }
  | some f =>
    if (validateAudioFile (some f)).valid = false then
      { resp := .invalidFile (((validateAudioFile (some f)).error).getD "")
        db := db, pending := none, events := [.responded 400 none] }
    else
      match parseCreateTranscription body with
      | none =>
        { resp := .invalidBody, db := db, pending := none
          events := [.responded 400 none] }
      | some (title, source) =>
        match findUserById users userId with
        | none =>
          { resp := .userNotFound, db := db, pending := none
            events := [.responded 404 none] }
        | some user =>
          { resp := .created newId .processing
            db := db ++ [newRecord userId user f title source newId]
            pending := some
              { doc := newRecord userId user f title source newId
                filePath := f.path, mimeType := f.mimetype
                source := source, durationEstimate := getAudioDuration f.size }
            events :=
              [.recordCreated newId .processing, .providerInvoked newId,
               .responded 201 (some .processing)] }

/-- Mongoose document validation for the transcription schema: the one
non-structural constraint is the confidence range — min 0, max 1
(src/src/models/Transcription.ts, lines 58-63).  The required, enum and
maxlength constraints are structural in the model (carried by the
types) or guaranteed by the zod schemas upstream. -/
def transcriptionDocValid (t : Transcription) : Bool :=
  decide (0 ≤ t.confidence) && decide (t.confidence ≤ 1)

/-- Mongoose document save: validate, then persist by id; a document
failing validation is rejected — the save throws and the stored copy is
untouched. -/
def saveTranscription (db : List Transcription) (t : Transcription) :
    Option (List Transcription) :=
  if transcriptionDocValid t then
    some (updateTranscriptionById db t.id (fun _ => t))
  else
    none

/-- The mutation the then-branch applies to the in-memory document
(controller lines 124-128): fill in the provider result and mark
completed; a zero provider duration falls back to the estimate, JS
falsy semantics. -/
def completedDoc (doc : Transcription) (durationEstimate : ℚ)
    (result : TranscribeResult) : Transcription :=
  { doc with
    transcription := result.transcription
    confidence := result.confidence
    duration :=
      if result.duration = 0 then durationEstimate else result.duration
    status := .completed
    metadata := some result.metadata }

/-- The mutation the catch-branch applies (controller line 135). -/
def failedDoc (doc : Transcription) : Transcription :=
  { doc with status := .failed }

/-- src/src/controllers/transcriptionController.ts, lines 121-142: the
then/catch continuation of the provider promise.  Success fills in the
result, marks completed and saves; failure marks failed, saves, and
deletes the backing file, retaining the document.  Each save runs the
schema validation: a rejected then-save throws into the catch, whose
own save of the still-invalid document is rejected too, so the stored
record stays untouched and the cleanup after that save never runs.
The terminalWrite event marks the last terminal save the continuation
issues, whether or not the store accepts it. -/
def finishTranscription (db : List Transcription) (disk : List String)
    (job : PendingJob) (outcome : Except String TranscribeResult) :
    List Transcription × List String × List Event :=
  match outcome with
  | .ok result =>
    match saveTranscription db (completedDoc job.doc job.durationEstimate result) with
    | some db2 => (db2, disk, [.terminalWrite job.doc.id .completed])
    | none =>
      match saveTranscription db
          (failedDoc (completedDoc job.doc job.durationEstimate result)) with
      | some db3 =>
        (db3, cleanupFile disk job.filePath, [.terminalWrite job.doc.id .failed])
      | none => (db, disk, [.terminalWrite job.doc.id .failed])
  | .error _ =>
    match saveTranscription db (failedDoc job.doc) with
    | some db2 =>
      (db2, cleanupFile disk job.filePath, [.terminalWrite job.doc.id .failed])
    | none => (db, disk, [.terminalWrite job.doc.id .failed])

/-- src/src/controllers/transcriptionController.ts, lines 115-119: the
provenance selects the provider invocation strategy. -/
def runProvider (source : Source) (remote : RemoteOutcome) :
    Except String TranscribeResult :=
  match source with
  | .recording => transcribeBuffer remote
  | .upload => transcribeFile remote

/-- One whole submission: the synchronous handler, then the background
continuation resolved with the given remote outcome.  Returns the
synchronous result, the final store, the final upload directory, and
the full event trace. -/
def submitAndFinish (users : List User) (db : List Transcription)
    (disk : List String) (userId : String) (file : Option MulterFile)
    (body : CreateBody) (newId : String) (remote : RemoteOutcome) :
    SubmitResult × List Transcription × List String × List Event :=
  let s := uploadAndTranscribe users db userId file body newId
  match s.pending with
  | none => (s, s.db, disk, s.events)
  | some job =>
    let fin := finishTranscription s.db disk job (runProvider job.source remote)
    (s, fin.1, fin.2.1, s.events ++ fin.2.2)

/-- Responses of getTranscription. -/
inductive GetResp where
  | notFound
  | found (t : Transcription)
deriving DecidableEq, Repr

/-- src/src/controllers/transcriptionController.ts, lines 220-241: fetch
by record id and authenticated user id. -/
def getTranscription (db : List Transcription) (userId id : String) : GetResp :=
  match findTranscription db id userId with
  | none => .notFound
  | some t => .found t

/-- Responses of updateTranscription. -/
inductive UpdateResp where
  | badRequest
  | notFound
  | updated (t : Transcription)
deriving DecidableEq, Repr

/-- TranscriptionModel.findOneAndUpdate on the id+owner filter: update
the first matching document with the parsed title, returning the new
document. -/
def findOneAndUpdateTitle (db : List Transcription) (id userId : String)
    (d : UpdateData) : Option Transcription × List Transcription :=
  match db with
  | [] => (none, [])
  | t :: rest =>
    if t.id == id && t.userId == userId then
      let t2 :=
        match d.title with
        | none => t
        | some s => { t with title := s }
      (some t2, t2 :: rest)
    else
      let r := findOneAndUpdateTitle rest id userId d
      (r.1, t :: r.2)

/-- src/src/controllers/transcriptionController.ts, lines 243-278. -/
def updateTranscription (db : List Transcription) (userId id : String)
    (body : UpdateBody) : UpdateResp × List Transcription :=
  match parseUpdateTranscription body with
  | none => (.badRequest, db)
  | some d =>
    let r := findOneAndUpdateTitle db id userId d
    match r.1 with
    | none => (.notFound, r.2)
    | some t => (.updated t, r.2)

/-- Responses of deleteTranscription. -/
inductive DeleteResp where
  | passwordRequired
  | userNotFound
  | invalidPassword
  | notFound
  | deleted
deriving DecidableEq, Repr

/-- TranscriptionModel.findOneAndDelete on the id+owner filter. -/
def findOneAndDeleteTranscription (db : List Transcription) (id userId : String) :
    Option Transcription × List Transcription :=
  match db with
  | [] => (none, [])
  | t :: rest =>
    if t.id == id && t.userId == userId then (some t, rest)
    else
      let r := findOneAndDeleteTranscription rest id userId
      (r.1, t :: r.2)

/-- src/src/controllers/transcriptionController.ts, lines 280-325:
password re-entry, then delete by id+owner and clean up the backing
file.  A missing or empty password is falsy in JS. -/
def deleteTranscription (users : List User) (db : List Transcription)
    (disk : List String) (userId id : String) (password : Option String) :
    DeleteResp × List Transcription × List String :=
  match password with
  | none => (.passwordRequired, db, disk)
  | some pw =>
    if pw == "" then (.passwordRequired, db, disk)
    else
      match findUserById users userId with
      | none => (.userNotFound, db, disk)
      | some user =>
        if !(bcryptCompare pw user.password) then (.invalidPassword, db, disk)
        else
          let r := findOneAndDeleteTranscription db id userId
          match r.1 with
          | none => (.notFound, r.2, disk)
          | some t => (.deleted, r.2, cleanupFile disk t.fileUrl)

/-- Responses of downloadTranscription. -/
inductive DownloadResp where
  | notFound
  | notCompleted
  | content (text : String)
deriving DecidableEq, Repr

/-- src/src/controllers/transcriptionController.ts, lines 373-419: fetch
by id+owner, require completed status, send the transcript (the
text/JSON export formatting is presentation only). -/
def downloadTranscription (db : List Transcription) (userId id : String) :
    DownloadResp :=
  match findTranscription db id userId with
  | none => .notFound
  | some t =>
    if t.status ≠ Status.completed then .notCompleted
    else .content t.transcription

/-! ## Concrete sample data for witnesses and counterexamples -/

/-- A well-formed one-megabyte wav upload. -/
def sampleWav : MulterFile :=
  { originalname := "clip.wav", mimetype := "audio/wav"
    size := 1048576, path := "uploads/clip1" }

/-- A text file, outside the audio allow-list. -/
def sampleTxt : MulterFile :=
  { originalname := "notes.txt", mimetype := "text/plain"
    size := 10, path := "uploads/n1" }

/-- A registered, active, unlocked user. -/
def alice : User :=
  { id := "u1", username := "alice", email := "alice@example.com"
    password := bcryptHash "CorrectHorse9.", tokenVersion := 0
    isActive := true, loginAttempts := 0, lockUntil := none }

/-- A user currently inside the lockout window (locked until time 5000). -/
def bobLocked : User :=
  { id := "u2", username := "bob", email := "bob@example.com"
    password := bcryptHash "Hunter2Good.", tokenVersion := 0
    isActive := true, loginAttempts := 5, lockUntil := some 5000 }

/-- A completed transcription owned by the user with id u2. -/
def carolRecord : Transcription :=
  { id := "tr9", userId := "u2", username := "carol"
    email := "carol@example.com", title := "Notes"
    originalFilename := "n.wav", fileUrl := "uploads/n9"
    mimeType := "audio/wav", fileSize := 5, duration := 1
    transcription := "hi there", confidence := 1
    status := .completed, source := .upload, metadata := none }

/-- A Deepgram response with one non-empty transcript alternative. -/
def okRemote : RemoteOutcome :=
  .sdkOk (some
    { results := some
        { channels :=
            [{ alternatives :=
                [{ transcript := some "hello world", confidence := some 1 }] }] }
      metadata := some
        { duration := some 2, request_id := some "rq1"
          processing_total_time := some 3 } })

/-- A Deepgram response whose only alternative carries an empty
transcript: the SDK reports no error and the first alternative exists,
so the provider client succeeds with an empty transcription. -/
def emptyRemote : RemoteOutcome :=
  .sdkOk (some
    { results := some
        { channels :=
            [{ alternatives :=
                [{ transcript := some "", confidence := some 1 }] }] }
      metadata := none })

/-- The payload of the access token issued to alice at time 1000. -/
def alicePayload : JWTPayload :=
  { userId := "u1", email := "alice@example.com", username := "alice"
    tokenVersion := some 0 }

/-- The access token issued to alice at time 1000 (epoch 0). -/
def aliceToken : Token := generateAccessToken alicePayload 1000

/-- The claim predicate of C2 on one record: the transcript is empty
exactly when the state is processing or failed. -/
def transcriptEmptyIffNotCompleted (t : Transcription) : Prop :=
  t.transcription = "" ↔ (t.status = Status.processing ∨ t.status = Status.failed)

instance : DecidablePred transcriptEmptyIffNotCompleted := fun t => by
  unfold transcriptEmptyIffNotCompleted
  infer_instance

/-- The store after uploading the sample wav as alice and resolving the
provider call with the empty-transcript response. -/
def c2FinalDb : List Transcription :=
  (submitAndFinish [alice] [] ["uploads/clip1"] "u1" (some sampleWav)
    { title := none, source := none } "t1" emptyRemote).2.1

/-! ## Theorems -/

/-- C6: `validateAudioFile` returns a validation error — a result with
valid set to false and an error message, not an exception — exactly when
no file is given, the file size exceeds 50 MiB, or the case-insensitive
filename extension is outside the allow-listed set mp3, wav, webm, mp4,
m4a, aac, ogg, opus, flac; otherwise it returns valid. -/
theorem c6_validateAudioFile_characterisation :
    (validateAudioFile none).valid = false ∧
    (validateAudioFile none).error.isSome = true ∧
    ∀ f : MulterFile,
      ((validateAudioFile (some f)).valid = false ↔
        (50 * 1024 * 1024 < f.size ∨
          allowedExtensions.contains (strToLower (extname f.originalname)) = false)) ∧
      ((validateAudioFile (some f)).error.isSome = true ↔
        (validateAudioFile (some f)).valid = false) := by
  refine ⟨rfl, rfl, fun f => ?_⟩
  simp only [validateAudioFile]
  by_cases h1 : f.size > 50 * 1024 * 1024
  · rw [if_pos h1]
    exact ⟨⟨fun _ => Or.inl h1, fun _ => rfl⟩, ⟨fun _ => rfl, fun _ => rfl⟩⟩
  · rw [if_neg h1]
    cases hc : allowedExtensions.contains (strToLower (extname f.originalname)) with
    | false => simp
    | true => simp [h1]

/-- C7: the provider client fails exactly when the SDK call reports an
error or the response carries no first transcript alternative; on
success the transcript, confidence and duration are taken from the
response with total defaults (empty string and zero), so confidence and
duration are never absent; and `transcribeBuffer` behaves identically to
`transcribeFile`. -/
theorem c7_transcribe_characterisation :
    ∀ remote : RemoteOutcome,
      ((∃ e, transcribeFile remote = Except.error e) ↔
        ((∃ m, remote = RemoteOutcome.sdkError m) ∨
          (∃ result, remote = RemoteOutcome.sdkOk result ∧
            firstAlternative result = none))) ∧
      (∀ result alternative, remote = RemoteOutcome.sdkOk result →
        firstAlternative result = some alternative →
        transcribeFile remote = Except.ok
          { transcription := alternative.transcript.getD ""
            confidence := alternative.confidence.getD 0
            duration :=
              ((result.bind DGResult.metadata).bind DGMetadata.duration).getD 0
            metadata :=
              { deepgramRequestId :=
                  (result.bind DGResult.metadata).bind DGMetadata.request_id
                processingTime :=
                  ((result.bind DGResult.metadata).bind
                    DGMetadata.processing_total_time).getD 0 } }) ∧
      transcribeBuffer remote = transcribeFile remote := by
  intro remote
  cases remote with
  | sdkError m =>
    refine ⟨⟨fun _ => Or.inl ⟨m, rfl⟩,
      fun _ => ⟨"Transcription failed: Deepgram API error: " ++ m, rfl⟩⟩, ?_, rfl⟩
    intro result alternative h
    exact absurd h (by simp)
  | sdkOk result =>
    cases halt : firstAlternative result with
    | none =>
      refine ⟨⟨fun _ => Or.inr ⟨result, rfl, halt⟩, fun _ => ?_⟩, ?_, ?_⟩
      · exact ⟨"Transcription failed: No transcription results returned from Deepgram",
          by simp [transcribeFile, halt]⟩
      · intro result2 alternative h h2
        cases h
        rw [halt] at h2
        exact absurd h2 (by simp)
      · simp [transcribeFile, transcribeBuffer, halt]
    | some alt =>
      refine ⟨⟨fun he => ?_, fun hr => ?_⟩, ?_, ?_⟩
      · obtain ⟨e, he⟩ := he
        simp [transcribeFile, halt] at he
      · rcases hr with ⟨m, hm⟩ | ⟨result2, hr2, hnone⟩
        · exact absurd hm (by simp)
        · cases hr2
          rw [halt] at hnone
          exact absurd hnone (by simp)
      · intro result2 alternative h h2
        cases h
        rw [halt] at h2
        cases h2
        simp [transcribeFile, halt]
      · simp [transcribeFile, transcribeBuffer, halt]

/-- Witness for C7: on a concrete successful response the client returns
the transcript with its confidence, duration and metadata. -/
theorem c7_transcribe_characterisation_witness :
    transcribeFile okRemote = Except.ok
      { transcription := "hello world", confidence := 1, duration := 2
        metadata := { deepgramRequestId := some "rq1", processingTime := 3 } } := by
  have h := (c7_transcribe_characterisation okRemote).2.1
    (some
      { results := some
          { channels :=
              [{ alternatives :=
                  [{ transcript := some "hello world", confidence := some 1 }] }] }
        metadata := some
          { duration := some 2, request_id := some "rq1"
            processing_total_time := some 3 } })
    { transcript := some "hello world", confidence := some 1 } rfl rfl
  exact h

/-- C1 (refuting the claim as stated — the code contradicts its own
stated intent): alice logs in at time 1000 and receives a token carrying
epoch 0; logoutAllDevices then bumps her stored token-epoch to 1; yet at
time 1060 — within the 15-minute expiry — `authenticateToken` still
accepts the stale-epoch token, because the middleware checks only
presence, expiry and signature and never compares the token epoch with
the account epoch. -/
theorem c1_stale_epoch_token_still_accepted :
    (login [alice] "alice@example.com" "CorrectHorse9." 1000).1 =
      LoginResp.loginOk aliceToken ∧
    aliceToken.payload.tokenVersion = some 0 ∧
    (logoutAllDevices [alice] "u1").1 = LogoutAllResp.loggedOut ∧
    findUserById (logoutAllDevices [alice] "u1").2 "u1" =
      some { alice with tokenVersion := 1 } ∧
    isTokenExpired aliceToken 1060 = false ∧
    authenticateToken (some aliceToken) 1060 =
      AuthResult.authenticated alicePayload := by
  refine ⟨?_, rfl, ?_, ?_, rfl, ?_⟩ <;> decide

/-- C8: while an account is locked, the login controller answers
account-locked (HTTP 423) and leaves the user store unchanged, for every
supplied password — the locked check precedes the password check. -/
theorem c8_locked_account_rejects_login (users : List User)
    (email password : String) (now : Nat) (u : User)
    (hf : findUserByEmail users email = some u)
    (hl : isLocked u now = true) :
    (login users email password now).1 = LoginResp.accountLocked ∧
    (login users email password now).2 = users := by
  unfold login
  rw [hf]
  simp [hl]

/-- Witness for C8: bob is locked until time 5000; at time 4000 a login
with his correct password is still rejected as account-locked. -/
theorem c8_locked_account_rejects_login_witness :
    findUserByEmail [bobLocked] "bob@example.com" = some bobLocked ∧
    isLocked bobLocked 4000 = true ∧
    bcryptCompare "Hunter2Good." bobLocked.password = true ∧
    (login [bobLocked] "bob@example.com" "Hunter2Good." 4000).1 =
      LoginResp.accountLocked ∧
    (login [bobLocked] "bob@example.com" "Hunter2Good." 4000).2 = [bobLocked] := by
  have h := c8_locked_account_rejects_login [bobLocked] "bob@example.com"
    "Hunter2Good." 4000 bobLocked (by decide) (by decide)
  exact ⟨by decide, by decide, by decide, h.1, h.2⟩

/-- C5: when the upload carries no file or the file fails validation,
the handler answers 400, the store is unchanged — no record is created —
and no provider job is scheduled. -/
theorem c5_invalid_upload_creates_no_record (users : List User)
    (db : List Transcription) (userId : String) (file : Option MulterFile)
    (body : CreateBody) (newId : String)
    (h : (validateAudioFile file).valid = false) :
    (uploadAndTranscribe users db userId file body newId).resp.code = 400 ∧
    (uploadAndTranscribe users db userId file body newId).db = db ∧
    (uploadAndTranscribe users db userId file body newId).pending = none := by
  cases file with
  | none => exact ⟨rfl, rfl, rfl⟩
  | some f =>
    simp only [uploadAndTranscribe]
    rw [if_pos h]
    exact ⟨rfl, rfl, rfl⟩

/-- Witness for C5: uploading a text file is rejected with 400 and the
empty store stays empty. -/
theorem c5_invalid_upload_creates_no_record_witness :
    (validateAudioFile (some sampleTxt)).valid = false ∧
    (uploadAndTranscribe [alice] [] "u1" (some sampleTxt)
      { title := none, source := none } "t1").resp.code = 400 ∧
    (uploadAndTranscribe [alice] [] "u1" (some sampleTxt)
      { title := none, source := none } "t1").db = [] ∧
    (uploadAndTranscribe [alice] [] "u1" (some sampleTxt)
      { title := none, source := none } "t1").pending = none := by
  have hv : (validateAudioFile (some sampleTxt)).valid = false := by decide
  have h := c5_invalid_upload_creates_no_record [alice] [] "u1" (some sampleTxt)
    { title := none, source := none } "t1" hv
  exact ⟨hv, h.1, h.2.1, h.2.2⟩

/-- The synchronous upload handler on the accepted path, in closed form. -/
theorem uploadAndTranscribe_accepted (users : List User)
    (db : List Transcription) (userId : String) (f : MulterFile)
    (body : CreateBody) (newId : String) (title : String) (source : Source)
    (u : User)
    (hv : (validateAudioFile (some f)).valid = true)
    (hb : parseCreateTranscription body = some (title, source))
    (hu : findUserById users userId = some u) :
    uploadAndTranscribe users db userId (some f) body newId =
      { resp := .created newId .processing
        db := db ++ [newRecord userId u f title source newId]
        pending := some
          { doc := newRecord userId u f title source newId
            filePath := f.path, mimeType := f.mimetype
            source := source, durationEstimate := getAudioDuration f.size }
        events :=
          [.recordCreated newId .processing, .providerInvoked newId,
           .responded 201 (some .processing)] } := by
  simp only [uploadAndTranscribe]
  rw [hv, hb, hu]
  rfl

/-- The background continuation always issues exactly one terminal
write, on every provider outcome and every save verdict. -/
theorem finishTranscription_events (db : List Transcription)
    (disk : List String) (job : PendingJob)
    (outcome : Except String TranscribeResult) :
    ∃ st, (finishTranscription db disk job outcome).2.2 =
      [Event.terminalWrite job.doc.id st] := by
  cases outcome with
  | ok result =>
    simp only [finishTranscription]
    cases hs1 : saveTranscription db
        (completedDoc job.doc job.durationEstimate result) with
    | some db2 => exact ⟨Status.completed, rfl⟩
    | none =>
      cases hs2 : saveTranscription db
          (failedDoc (completedDoc job.doc job.durationEstimate result)) with
      | some db3 => exact ⟨Status.failed, rfl⟩
      | none => exact ⟨Status.failed, rfl⟩
  | error e =>
    simp only [finishTranscription]
    cases hs1 : saveTranscription db (failedDoc job.doc) with
    | some db2 => exact ⟨Status.failed, rfl⟩
    | none => exact ⟨Status.failed, rfl⟩

/-- C3: an accepted upload persists a record in processing state, the
201 response reports that record and the processing status without
consuming the provider outcome, and the full event trace places the
terminal write strictly after record creation and after the response. -/
theorem c3_submit_returns_before_terminal_write (users : List User)
    (db : List Transcription) (disk : List String) (userId : String)
    (f : MulterFile) (body : CreateBody) (newId : String)
    (remote : RemoteOutcome) (title : String) (source : Source) (u : User)
    (hv : (validateAudioFile (some f)).valid = true)
    (hb : parseCreateTranscription body = some (title, source))
    (hu : findUserById users userId = some u) :
    (uploadAndTranscribe users db userId (some f) body newId).resp =
      .created newId .processing ∧
    (uploadAndTranscribe users db userId (some f) body newId).resp.code = 201 ∧
    (uploadAndTranscribe users db userId (some f) body newId).db =
      db ++ [newRecord userId u f title source newId] ∧
    (newRecord userId u f title source newId).status = .processing ∧
    (newRecord userId u f title source newId).transcription = "" ∧
    (∃ st, (submitAndFinish users db disk userId (some f) body newId remote).2.2.2 =
      [Event.recordCreated newId .processing, Event.providerInvoked newId,
       Event.responded 201 (some .processing), Event.terminalWrite newId st]) := by
  have hup := uploadAndTranscribe_accepted users db userId f body newId
    title source u hv hb hu
  refine ⟨by rw [hup], by rw [hup]; rfl, by rw [hup], rfl, rfl, ?_⟩
  obtain ⟨st, hev⟩ := finishTranscription_events
    (db ++ [newRecord userId u f title source newId]) disk
    { doc := newRecord userId u f title source newId
      filePath := f.path, mimeType := f.mimetype
      source := source, durationEstimate := getAudioDuration f.size }
    (runProvider source remote)
  refine ⟨st, ?_⟩
  simp only [submitAndFinish, hup]
  rw [hev]
  rfl

/-- Witness for C3: the concrete sample upload is accepted with 201 and
its trace ends with the terminal write. -/
theorem c3_submit_returns_before_terminal_write_witness :
    (uploadAndTranscribe [alice] [] "u1" (some sampleWav)
      { title := none, source := none } "t1").resp =
      UploadResp.created "t1" Status.processing ∧
    (∃ st, (submitAndFinish [alice] [] ["uploads/clip1"] "u1" (some sampleWav)
      { title := none, source := none } "t1" (.sdkError "boom")).2.2.2 =
      [Event.recordCreated "t1" Status.processing, Event.providerInvoked "t1",
       Event.responded 201 (some Status.processing),
       Event.terminalWrite "t1" st]) := by
  have h := c3_submit_returns_before_terminal_write [alice] [] ["uploads/clip1"]
    "u1" sampleWav { title := none, source := none } "t1" (.sdkError "boom")
    "New Transcription" Source.upload alice (by decide) (by decide) (by decide)
  exact ⟨h.1, h.2.2.2.2.2⟩

/-- The provenance choice does not change the provider result. -/
theorem runProvider_eq_transcribeFile (source : Source) (remote : RemoteOutcome) :
    runProvider source remote = transcribeFile remote := by
  cases source with
  | recording =>
    simp only [runProvider]
    cases remote with
    | sdkError m => rfl
    | sdkOk result =>
      simp only [transcribeBuffer, transcribeFile]
  | upload => rfl

/-- Updating by id in a store whose prefix does not contain the id
touches only the appended record. -/
theorem updateById_append_fresh (db : List Transcription) (rec : Transcription)
    (f2 : Transcription → Transcription) (id : String)
    (hrec : rec.id = id) (hid : ∀ t ∈ db, t.id ≠ id) :
    updateTranscriptionById (db ++ [rec]) id f2 = db ++ [f2 rec] := by
  unfold updateTranscriptionById
  rw [List.map_append]
  congr 1
  · induction db with
    | nil => rfl
    | cons t rest ih =>
      have ht : t.id ≠ id := hid t (by simp)
      simp only [List.map_cons]
      rw [if_neg (by simp [ht])]
      rw [ih (fun s hs => hid s (by simp [hs]))]
  · simp [hrec]

/-- Saving a valid document whose id only matches the freshly appended
record replaces exactly that record. -/
theorem saveTranscription_append_fresh (db : List Transcription)
    (rec t : Transcription)
    (hid : ∀ s ∈ db, s.id ≠ rec.id) (hids : t.id = rec.id)
    (hval : transcriptionDocValid t = true) :
    saveTranscription (db ++ [rec]) t = some (db ++ [t]) := by
  unfold saveTranscription
  rw [if_pos hval]
  congr 1
  rw [hids]
  exact updateById_append_fresh db rec (fun _ => t) rec.id rfl hid

/-- A deleted path is gone from the upload directory. -/
theorem not_mem_cleanupFile (disk : List String) (p : String) :
    p ∉ cleanupFile disk p := by
  unfold cleanupFile
  by_cases h : disk.contains p
  · rw [if_pos h]
    intro hmem
    have := (List.mem_filter.mp hmem).2
    simp at this
  · rw [if_neg h]
    intro hmem
    exact h (List.elem_eq_true_of_mem hmem)

/-- C4: when the provider call fails for any reason, the record
transitions to failed, the backing file is no longer on disk, and the
record itself is retained — the store is the old store plus the one
record, now failed. -/
theorem c4_provider_failure_terminal_failed (users : List User)
    (db : List Transcription) (disk : List String) (userId : String)
    (f : MulterFile) (body : CreateBody) (newId : String)
    (remote : RemoteOutcome) (title : String) (source : Source) (u : User)
    (hv : (validateAudioFile (some f)).valid = true)
    (hb : parseCreateTranscription body = some (title, source))
    (hu : findUserById users userId = some u)
    (hid : ∀ t ∈ db, t.id ≠ newId)
    (he : ∃ e, transcribeFile remote = Except.error e) :
    (submitAndFinish users db disk userId (some f) body newId remote).2.1 =
      db ++ [{ newRecord userId u f title source newId with status := Status.failed }] ∧
    ({ newRecord userId u f title source newId with status := Status.failed }).id
      = newId ∧
    ({ newRecord userId u f title source newId with status := Status.failed }).status
      = Status.failed ∧
    f.path ∉ (submitAndFinish users db disk userId (some f) body newId remote).2.2.1 := by
  obtain ⟨e, he⟩ := he
  have hup := uploadAndTranscribe_accepted users db userId f body newId
    title source u hv hb hu
  have hrun : runProvider source remote = Except.error e := by
    rw [runProvider_eq_transcribeFile, he]
  have hval : transcriptionDocValid
      (failedDoc (newRecord userId u f title source newId)) = true := rfl
  have hsave := saveTranscription_append_fresh db
    (newRecord userId u f title source newId)
    (failedDoc (newRecord userId u f title source newId))
    (fun s hs => hid s hs) rfl hval
  simp only [submitAndFinish, hup, finishTranscription, hrun, hsave]
  refine ⟨?_, ?_, ?_, ?_⟩
  · rfl
  · trivial
  · trivial
  · exact not_mem_cleanupFile disk f.path

/-- Witness for C4: the sample upload with a failing provider call ends
failed, retained in the store, with the backing file removed. -/
theorem c4_provider_failure_terminal_failed_witness :
    (submitAndFinish [alice] [] ["uploads/clip1"] "u1" (some sampleWav)
      { title := none, source := none } "t1" (.sdkError "boom")).2.1 =
      [{ newRecord "u1" alice sampleWav "New Transcription" Source.upload "t1"
          with status := Status.failed }] ∧
    "uploads/clip1" ∉ (submitAndFinish [alice] [] ["uploads/clip1"] "u1"
      (some sampleWav) { title := none, source := none } "t1"
      (.sdkError "boom")).2.2.1 := by
  have h := c4_provider_failure_terminal_failed [alice] [] ["uploads/clip1"]
    "u1" sampleWav { title := none, source := none } "t1" (.sdkError "boom")
    "New Transcription" Source.upload alice (by decide) (by decide) (by decide)
    (by simp) ⟨"Transcription failed: Deepgram API error: boom", rfl⟩
  exact ⟨h.1, h.2.2.2⟩

/-- Pointwise identity satisfies the at-most-title frame relation. -/
theorem forall2_title_refl (db : List Transcription) :
    List.Forall₂ (fun a b => b = { a with title := b.title }) db db := by
  induction db with
  | nil => exact List.Forall₂.nil
  | cons t rest ih => exact List.Forall₂.cons rfl ih

/-- findOneAndUpdate with the title-only update data relates old and new
store pointwise: each record keeps every field except possibly title. -/
theorem findOneAndUpdateTitle_frame (db : List Transcription)
    (id userId : String) (d : UpdateData) :
    List.Forall₂ (fun a b => b = { a with title := b.title }) db
      (findOneAndUpdateTitle db id userId d).2 := by
  induction db with
  | nil => exact List.Forall₂.nil
  | cons t rest ih =>
    simp only [findOneAndUpdateTitle]
    by_cases hc : (t.id == id && t.userId == userId) = true
    · rw [if_pos hc]
      refine List.Forall₂.cons ?_ (forall2_title_refl rest)
      cases hd : d.title with
      | none => rfl
      | some s => rfl
    · rw [if_neg hc]
      exact List.Forall₂.cons rfl ih

/-- C9: the update endpoint changes at most the title of at most one
record: after any call, every record in the store agrees with the old
record at the same position on every field other than title — in
particular originalFilename, mimeType, fileSize and the owner fields
userId, username, email are unchanged — and the store keeps its length. -/
theorem c9_update_frame (db : List Transcription) (userId id : String)
    (body : UpdateBody) :
    List.Forall₂ (fun told tnew => tnew = { told with title := tnew.title }) db
      (updateTranscription db userId id body).2 := by
  unfold updateTranscription
  cases hp : parseUpdateTranscription body with
  | none => exact forall2_title_refl db
  | some d =>
    simp only
    cases hr : (findOneAndUpdateTitle db id userId d).1 with
    | none =>
      simpa using findOneAndUpdateTitle_frame db id userId d
    | some t =>
      simpa using findOneAndUpdateTitle_frame db id userId d

/-- The two-field filter finds nothing when no record carries both the
id and the owner. -/
theorem findTranscription_eq_none (db : List Transcription) (id uid : String)
    (h : ∀ t ∈ db, t.id = id → t.userId ≠ uid) :
    findTranscription db id uid = none := by
  unfold findTranscription
  rw [List.find?_eq_none]
  intro t ht
  simp only [Bool.and_eq_true, beq_iff_eq, not_and]
  intro h1 h2
  exact h t ht h1 h2

/-- findOneAndUpdate is the identity when the two-field filter matches
nothing. -/
theorem findOneAndUpdateTitle_none (db : List Transcription)
    (id uid : String) (d : UpdateData)
    (h : ∀ t ∈ db, t.id = id → t.userId ≠ uid) :
    findOneAndUpdateTitle db id uid d = (none, db) := by
  induction db with
  | nil => rfl
  | cons t rest ih =>
    simp only [findOneAndUpdateTitle]
    have hc : ¬ ((t.id == id && t.userId == uid) = true) := by
      simp only [Bool.and_eq_true, beq_iff_eq, not_and]
      exact fun h1 h2 => h t (by simp) h1 h2
    rw [if_neg hc, ih (fun s hs => h s (by simp [hs]))]

/-- findOneAndDelete deletes nothing when the two-field filter matches
nothing. -/
theorem findOneAndDeleteTranscription_none (db : List Transcription)
    (id uid : String)
    (h : ∀ t ∈ db, t.id = id → t.userId ≠ uid) :
    findOneAndDeleteTranscription db id uid = (none, db) := by
  induction db with
  | nil => rfl
  | cons t rest ih =>
    simp only [findOneAndDeleteTranscription]
    have hc : ¬ ((t.id == id && t.userId == uid) = true) := by
      simp only [Bool.and_eq_true, beq_iff_eq, not_and]
      exact fun h1 h2 => h t (by simp) h1 h2
    rw [if_neg hc, ih (fun s hs => h s (by simp [hs]))]

/-- C10: when no record with the requested id belongs to the requesting
user — in particular when the record belongs to a different user — every
per-record operation answers not-found (404) and changes nothing: get,
update (with a well-formed body), download, and delete (with the
requester password verified) all miss, and both the store and the
upload directory are untouched. -/
theorem c10_cross_user_isolation (users : List User) (db : List Transcription)
    (disk : List String) (uid id : String) (body : UpdateBody) (pw : String)
    (u : User) (d : UpdateData)
    (hno : ∀ t ∈ db, t.id = id → t.userId ≠ uid)
    (hbody : parseUpdateTranscription body = some d)
    (hu : findUserById users uid = some u)
    (hpw : bcryptCompare pw u.password = true)
    (hpwne : (pw == "") = false) :
    getTranscription db uid id = GetResp.notFound ∧
    (updateTranscription db uid id body).1 = UpdateResp.notFound ∧
    (updateTranscription db uid id body).2 = db ∧
    downloadTranscription db uid id = DownloadResp.notFound ∧
    (deleteTranscription users db disk uid id (some pw)).1 = DeleteResp.notFound ∧
    (deleteTranscription users db disk uid id (some pw)).2.1 = db ∧
    (deleteTranscription users db disk uid id (some pw)).2.2 = disk := by
  have hfind := findTranscription_eq_none db id uid hno
  have hupd := findOneAndUpdateTitle_none db id uid d hno
  have hdel := findOneAndDeleteTranscription_none db id uid hno
  have hdeleq : deleteTranscription users db disk uid id (some pw) =
      (DeleteResp.notFound, db, disk) := by
    simp [deleteTranscription, hpwne, hu, hpw, hdel]
  refine ⟨?_, ?_, ?_, ?_, ?_, ?_, ?_⟩
  · unfold getTranscription
    rw [hfind]
  · unfold updateTranscription
    rw [hbody]
    simp [hupd]
  · unfold updateTranscription
    rw [hbody]
    simp [hupd]
  · unfold downloadTranscription
    rw [hfind]
  · rw [hdeleq]
  · rw [hdeleq]
  · rw [hdeleq]

/-- Witness for C10: alice cannot see, edit, download or delete the
record owned by the user with id u2. -/
theorem c10_cross_user_isolation_witness :
    getTranscription [carolRecord] "u1" "tr9" = GetResp.notFound ∧
    (updateTranscription [carolRecord] "u1" "tr9"
      { title := some "mine now", originalFilename := none, mimeType := none
        fileSize := none, userId := none }).2 = [carolRecord] ∧
    downloadTranscription [carolRecord] "u1" "tr9" = DownloadResp.notFound ∧
    (deleteTranscription [alice] [carolRecord] ["uploads/n9"] "u1" "tr9"
      (some "CorrectHorse9.")).1 = DeleteResp.notFound ∧
    (deleteTranscription [alice] [carolRecord] ["uploads/n9"] "u1" "tr9"
      (some "CorrectHorse9.")).2.1 = [carolRecord] := by
  have h := c10_cross_user_isolation [alice] [carolRecord] ["uploads/n9"]
    "u1" "tr9"
    { title := some "mine now", originalFilename := none, mimeType := none
      fileSize := none, userId := none }
    "CorrectHorse9." alice { title := some "mine now" }
    (by decide) (by decide) (by decide) (by decide) (by decide)
  exact ⟨h.1, h.2.2.1, h.2.2.2.1, h.2.2.2.2.1, h.2.2.2.2.2.1⟩

/-- C2 counterexample: a provider response whose SDK call succeeds and
whose first alternative carries an empty transcript drives the record
to completed with an empty transcript — so transcript emptiness does
not characterise the processing and failed states.  The store reached
by the concrete run holds exactly one record, completed and empty. -/
theorem c2_counterexample_completed_with_empty_transcript :
    c2FinalDb.map (fun t => (t.status, t.transcription)) =
      [(Status.completed, "")] ∧
    ¬ ∀ t ∈ c2FinalDb, transcriptEmptyIffNotCompleted t := by
  refine ⟨rfl, ?_⟩
  decide

/-- The two-field filter finds a freshly appended record owned by the
requester when the prefix cannot match. -/
theorem findTranscription_append_owned (db : List Transcription)
    (rec : Transcription) (id uid : String)
    (hid : ∀ t ∈ db, t.id = id → t.userId ≠ uid)
    (h1 : rec.id = id) (h2 : rec.userId = uid) :
    findTranscription (db ++ [rec]) id uid = some rec := by
  induction db with
  | nil =>
    unfold findTranscription
    simp [List.find?, h1, h2]
  | cons t rest ih =>
    have hc : (t.id == id && t.userId == uid) = false := by
      cases hti : (t.id == id) with
      | false => simp [hti]
      | true =>
        have hne := hid t (by simp) (beq_iff_eq.mp hti)
        simp [beq_eq_false_iff_ne.mpr hne]
    have ih2 := ih (fun s hs => hid s (by simp [hs]))
    unfold findTranscription at ih2 ⊢
    rw [List.cons_append, List.find?_cons_of_neg _ (by simp [hc])]
    exact ih2

/-- C2 amended: the record of an accepted submission has an empty
transcript whenever its state is processing or failed; whenever it
transitions to completed, the stored transcript equals the provider
transcript — which may itself be empty, since the provider client
succeeds whenever a first alternative exists — and the stored
confidence lies in [0,1], the bound the schema validation enforces on
every save. -/
theorem c2_amended_transcript_and_confidence (users : List User)
    (db : List Transcription) (disk : List String) (userId : String)
    (f : MulterFile) (body : CreateBody) (newId : String)
    (remote : RemoteOutcome) (title : String) (source : Source) (u : User)
    (hv : (validateAudioFile (some f)).valid = true)
    (hb : parseCreateTranscription body = some (title, source))
    (hu : findUserById users userId = some u)
    (hid : ∀ t ∈ db, t.id ≠ newId) :
    ∃ rec2,
      findTranscription
        (submitAndFinish users db disk userId (some f) body newId remote).2.1
        newId userId = some rec2 ∧
      ((rec2.status = Status.processing ∨ rec2.status = Status.failed) →
        rec2.transcription = "") ∧
      (rec2.status = Status.completed →
        ∃ r, transcribeFile remote = Except.ok r ∧
          rec2.transcription = r.transcription) ∧
      (rec2.status = Status.completed →
        0 ≤ rec2.confidence ∧ rec2.confidence ≤ 1) := by
  have hup := uploadAndTranscribe_accepted users db userId f body newId
    title source u hv hb hu
  have hid2 : ∀ t ∈ db, t.id = newId → t.userId ≠ userId :=
    fun t ht h1 => absurd h1 (hid t ht)
  cases remote with
  | sdkError m =>
    have hrun : runProvider source (RemoteOutcome.sdkError m) =
        Except.error ("Transcription failed: Deepgram API error: " ++ m) := by
      rw [runProvider_eq_transcribeFile]
      rfl
    have hval : transcriptionDocValid
        (failedDoc (newRecord userId u f title source newId)) = true := rfl
    have hsave := saveTranscription_append_fresh db
      (newRecord userId u f title source newId)
      (failedDoc (newRecord userId u f title source newId))
      (fun s hs => hid s hs) rfl hval
    have hdb : (submitAndFinish users db disk userId (some f) body newId
        (RemoteOutcome.sdkError m)).2.1 =
        db ++ [failedDoc (newRecord userId u f title source newId)] := by
      simp only [submitAndFinish, hup, finishTranscription, hrun, hsave]
    refine ⟨failedDoc (newRecord userId u f title source newId),
      ?_, fun _ => rfl, ?_, ?_⟩
    · rw [hdb]
      exact findTranscription_append_owned db _ newId userId hid2 rfl rfl
    · intro h
      simp [failedDoc] at h
    · intro h
      simp [failedDoc] at h
  | sdkOk result =>
    cases halt : firstAlternative result with
    | none =>
      have hrun : runProvider source (RemoteOutcome.sdkOk result) =
          Except.error
            "Transcription failed: No transcription results returned from Deepgram" := by
        rw [runProvider_eq_transcribeFile]
        simp [transcribeFile, halt]
      have hval : transcriptionDocValid
          (failedDoc (newRecord userId u f title source newId)) = true := rfl
      have hsave := saveTranscription_append_fresh db
        (newRecord userId u f title source newId)
        (failedDoc (newRecord userId u f title source newId))
        (fun s hs => hid s hs) rfl hval
      have hdb : (submitAndFinish users db disk userId (some f) body newId
          (RemoteOutcome.sdkOk result)).2.1 =
          db ++ [failedDoc (newRecord userId u f title source newId)] := by
        simp only [submitAndFinish, hup, finishTranscription, hrun, hsave]
      refine ⟨failedDoc (newRecord userId u f title source newId),
        ?_, fun _ => rfl, ?_, ?_⟩
      · rw [hdb]
        exact findTranscription_append_owned db _ newId userId hid2 rfl rfl
      · intro h
        simp [failedDoc] at h
      · intro h
        simp [failedDoc] at h
    | some alt =>
      obtain ⟨rr, htf⟩ : ∃ rr, transcribeFile (RemoteOutcome.sdkOk result) =
          Except.ok rr :=
        ⟨{ transcription := alt.transcript.getD ""
           confidence := alt.confidence.getD 0
           duration :=
             ((result.bind DGResult.metadata).bind DGMetadata.duration).getD 0
           metadata :=
             { deepgramRequestId :=
                 (result.bind DGResult.metadata).bind DGMetadata.request_id
               processingTime :=
                 ((result.bind DGResult.metadata).bind
                   DGMetadata.processing_total_time).getD 0 } },
         by simp [transcribeFile, halt]⟩
      have hrun := (runProvider_eq_transcribeFile source
        (RemoteOutcome.sdkOk result)).trans htf
      cases hval : transcriptionDocValid
          (completedDoc (newRecord userId u f title source newId)
            (getAudioDuration f.size) rr) with
      | true =>
        have hsave := saveTranscription_append_fresh db
          (newRecord userId u f title source newId)
          (completedDoc (newRecord userId u f title source newId)
            (getAudioDuration f.size) rr)
          (fun s hs => hid s hs) rfl hval
        have hdb : (submitAndFinish users db disk userId (some f) body newId
            (RemoteOutcome.sdkOk result)).2.1 =
            db ++ [completedDoc (newRecord userId u f title source newId)
              (getAudioDuration f.size) rr] := by
          simp only [submitAndFinish, hup, finishTranscription, hrun, hsave]
        refine ⟨completedDoc (newRecord userId u f title source newId)
          (getAudioDuration f.size) rr, ?_, ?_, ?_, ?_⟩
        · rw [hdb]
          exact findTranscription_append_owned db _ newId userId hid2 rfl rfl
        · intro h
          rcases h with h | h <;> simp [completedDoc] at h
        · intro _
          exact ⟨rr, htf, rfl⟩
        · intro _
          have hv2 := hval
          simp only [transcriptionDocValid, Bool.and_eq_true,
            decide_eq_true_eq] at hv2
          exact hv2
      | false =>
        have hval3 : transcriptionDocValid
            (failedDoc (completedDoc (newRecord userId u f title source newId)
              (getAudioDuration f.size) rr)) = false := hval
        have hsave1 : saveTranscription
            (db ++ [newRecord userId u f title source newId])
            (completedDoc (newRecord userId u f title source newId)
              (getAudioDuration f.size) rr) = none := by
          unfold saveTranscription
          rw [if_neg (by simp [hval])]
        have hsave2 : saveTranscription
            (db ++ [newRecord userId u f title source newId])
            (failedDoc (completedDoc (newRecord userId u f title source newId)
              (getAudioDuration f.size) rr)) = none := by
          unfold saveTranscription
          rw [if_neg (by simp [hval3])]
        have hdb : (submitAndFinish users db disk userId (some f) body newId
            (RemoteOutcome.sdkOk result)).2.1 =
            db ++ [newRecord userId u f title source newId] := by
          simp only [submitAndFinish, hup, finishTranscription, hrun,
            hsave1, hsave2]
        refine ⟨newRecord userId u f title source newId,
          ?_, fun _ => rfl, ?_, ?_⟩
        · rw [hdb]
          exact findTranscription_append_owned db _ newId userId hid2 rfl rfl
        · intro h
          simp [newRecord] at h
        · intro h
          simp [newRecord] at h

/-- Witness for C2 amended: the sample upload resolved with the
non-empty hello-world response satisfies every clause, and the concrete
run does reach the completed state, so the completed clauses are not
vacuous. -/
theorem c2_amended_transcript_and_confidence_witness :
    (validateAudioFile (some sampleWav)).valid = true ∧
    (findTranscription
      (submitAndFinish [alice] [] ["uploads/clip1"] "u1" (some sampleWav)
        { title := none, source := none } "t1" okRemote).2.1
      "t1" "u1").map Transcription.status = some Status.completed ∧
    (∃ rec2,
      findTranscription
        (submitAndFinish [alice] [] ["uploads/clip1"] "u1" (some sampleWav)
          { title := none, source := none } "t1" okRemote).2.1
        "t1" "u1" = some rec2 ∧
      ((rec2.status = Status.processing ∨ rec2.status = Status.failed) →
        rec2.transcription = "") ∧
      (rec2.status = Status.completed →
        ∃ r, transcribeFile okRemote = Except.ok r ∧
          rec2.transcription = r.transcription) ∧
      (rec2.status = Status.completed →
        0 ≤ rec2.confidence ∧ rec2.confidence ≤ 1)) :=
  ⟨by decide, by decide,
    c2_amended_transcript_and_confidence [alice] [] ["uploads/clip1"] "u1"
      sampleWav { title := none, source := none } "t1" okRemote
      "New Transcription" Source.upload alice (by decide) (by decide)
      (by decide) (by simp)⟩

end SpeechToText
